import Mathlib

/-!
Verification development for the VL53L0X time-of-flight sensor driver
(`src/Core/Src/VL53L0X.c`).

The driver's timing and calibration logic is shallowly embedded here.
Machine integers are modelled as `Nat` with explicit reductions modulo
`256` (uint8), `65536` (uint16) and `4294967296` (uint32) at the points
where the C code performs a narrowing conversion or where a uint32
computation can wrap.  The device is modelled as a register file
`Nat → Nat` holding one byte per register address; the I2C transport is
abstracted away (a register write updates the file, a register read
returns the current byte).  Multi-byte accesses use consecutive
addresses big-endian, exactly as the byte buffers in the C read/write
helpers do.

The register-address constants come from `VL53L0X.h`, which is not part
of the repository sources; their values are the vendor register map that
the specification fixes as a wire contract.  The struct definitions
(`struct VL53L0X`, the sequence-step structs) also live in that missing
header; their fields are modelled from the specification's data model
(handle with bus address, stop variable, cached timing budget, sticky
timeout flag, supply-voltage flag; enables as five booleans; timeouts in
mclks and microseconds plus the two vcsel periods).

Polling loops: `VL53L0X_startTimeout` has an empty body and
`VL53L0X_checkTimeoutExpired` returns `0` in the source (the actual
elapsed-time check is commented out).  Reading a register does not
change the register file, so a polling loop either exits because its
ready condition holds at the first read, or it never exits.  Functions
containing such a loop therefore return `Option`: `none` models the
non-terminating run.  Fuel-indexed versions of the two polling loops are
also given so that per-iteration behaviour can be stated.
-/

/-! Register addresses (vendor register map, from the missing `VL53L0X.h`). -/

def SYSRANGE_START : Nat := 0x00
def SYSTEM_SEQUENCE_CONFIG : Nat := 0x01
def SYSTEM_INTERMEASUREMENT_PERIOD : Nat := 0x04
def SYSTEM_INTERRUPT_CONFIG_GPIO : Nat := 0x0A
def SYSTEM_INTERRUPT_CLEAR : Nat := 0x0B
def RESULT_INTERRUPT_STATUS : Nat := 0x13
def RESULT_RANGE_STATUS : Nat := 0x14
def MSRC_CONFIG_CONTROL : Nat := 0x60
def MSRC_CONFIG_TIMEOUT_MACROP : Nat := 0x46
def PRE_RANGE_CONFIG_VCSEL_PERIOD : Nat := 0x50
def PRE_RANGE_CONFIG_TIMEOUT_MACROP_HI : Nat := 0x51
def PRE_RANGE_CONFIG_VALID_PHASE_LOW : Nat := 0x56
def PRE_RANGE_CONFIG_VALID_PHASE_HIGH : Nat := 0x57
def FINAL_RANGE_CONFIG_VCSEL_PERIOD : Nat := 0x70
def FINAL_RANGE_CONFIG_TIMEOUT_MACROP_HI : Nat := 0x71
def FINAL_RANGE_CONFIG_VALID_PHASE_LOW : Nat := 0x47
def FINAL_RANGE_CONFIG_VALID_PHASE_HIGH : Nat := 0x48
def GLOBAL_CONFIG_VCSEL_WIDTH : Nat := 0x32
def ALGO_PHASECAL_CONFIG_TIMEOUT : Nat := 0x30
def ALGO_PHASECAL_LIM : Nat := 0x30
def OSC_CALIBRATE_VAL : Nat := 0xF8

/-- Modelled from the spec: the device handle `struct VL53L0X` (its
definition is in the missing header).  Fields per the spec's data model:
7-bit bus address, supply-voltage mode flag, persisted stop variable,
cached measurement timing budget in microseconds, sticky timeout flag. -/
structure VL53L0X where
  address : Nat
  io_2v8 : Bool
  stop_variable : Nat
  measurement_timing_budget_us : Nat
  did_timeout : Bool

/-- The handle together with the device register file (one byte per
register address). -/
structure Machine where
  dev : VL53L0X
  regs : Nat → Nat

/-- VL53L0X_writeReg: write an 8-bit register (the uint8 value parameter
truncates the stored byte). -/
def VL53L0X_writeReg (m : Machine) (reg value : Nat) : Machine :=
  { m with regs := fun r => if r = reg then value % 256 else m.regs r }

/-- VL53L0X_readReg: read an 8-bit register (the device returns one byte). -/
def VL53L0X_readReg (m : Machine) (reg : Nat) : Nat :=
  m.regs reg % 256

/-- VL53L0X_writeReg16Bit: write a 16-bit register, high byte at `reg`,
low byte at `reg + 1` (the C helper sends the buffer
`[reg, value >> 8, value & 0xFF]` and the device auto-increments). -/
def VL53L0X_writeReg16Bit (m : Machine) (reg value : Nat) : Machine :=
  VL53L0X_writeReg (VL53L0X_writeReg m reg (value / 256)) (reg + 1) value

/-- VL53L0X_readReg16Bit: read a 16-bit register,
`(buf[0] << 8) | buf[1]` with `buf` read from `reg`, `reg + 1`. -/
def VL53L0X_readReg16Bit (m : Machine) (reg : Nat) : Nat :=
  VL53L0X_readReg m reg * 256 + VL53L0X_readReg m (reg + 1)

/-! Timeout codec. -/

/-- Body of the while loop in VL53L0X_encodeTimeout:
`while ((ls_byte & 0xFFFFFF00) > 0) { ls_byte >>= 1; ms_byte++; }`.
`ls_byte` is a uint32, so the loop condition is `255 < ls_byte`.  The
recursion is driven by a structural fuel argument; `encLoop` below
supplies fuel `ls`, which always suffices because `ls` at least halves
at every iteration (see `encLoop_eq` for the loop-shaped unfolding). -/
def encLoopAux : Nat → Nat → Nat → Nat × Nat
  | 0, ls, ms => (ls, ms)
  | fuel + 1, ls, ms =>
    if 255 < ls then encLoopAux fuel (ls / 2) (ms + 1) else (ls, ms)

/-- The encode loop: repeatedly halve `ls` while it exceeds 8 bits,
counting iterations in `ms`. -/
def encLoop (ls ms : Nat) : Nat × Nat := encLoopAux ls ls ms

/-- VL53L0X_encodeTimeout: encode a sequence-step timeout register value
from a timeout in MCLKs (uint16 argument).  If the timeout is 0 the
result is 0; otherwise the loop shifts `timeout_mclks - 1` down to 8
bits and the result is `(ms_byte << 8) | (ls_byte & 0xFF)` — the two
bytes occupy disjoint bit ranges, so the OR is addition. -/
def VL53L0X_encodeTimeout (timeout_mclks : Nat) : Nat :=
  let t := timeout_mclks % 65536
  if 0 < t then
    let r := encLoop (t - 1) 0
    r.2 % 256 * 256 + r.1 % 256
  else 0

/-- VL53L0X_decodeTimeout: decode a sequence-step timeout in MCLKs from
a register value (uint16 argument): the low byte shifted left by the
high byte, truncated to uint16, plus 1, returned as uint16.
`reg_val & 0x00FF` is `reg_val % 256` and `(reg_val & 0xFF00) >> 8` is
`reg_val / 256` for a 16-bit `reg_val`. -/
def VL53L0X_decodeTimeout (reg_val : Nat) : Nat :=
  let r := reg_val % 65536
  (r % 256 * 2 ^ (r / 256) % 65536 + 1) % 65536

/-- calcMacroPeriod: macro period in nanoseconds from the VCSEL period
in PCLKs (uint8): `((2304 * p * 1655) + 500) / 1000`; the uint32
computation cannot wrap for `p < 256`. -/
def calcMacroPeriod (vcsel_period_pclks : Nat) : Nat :=
  (2304 * (vcsel_period_pclks % 256) * 1655 + 500) / 1000

/-- VL53L0X_timeoutMclksToMicroseconds: `timeout_period_mclks` is a
uint16; the product and sum are uint32 arithmetic, hence the reduction
modulo `2^32` before the division. -/
def VL53L0X_timeoutMclksToMicroseconds (timeout_period_mclks vcsel_period_pclks : Nat) : Nat :=
  let macroPeriodNs := calcMacroPeriod vcsel_period_pclks
  (timeout_period_mclks % 65536 * macroPeriodNs + macroPeriodNs / 2) % 4294967296 / 1000

/-- VL53L0X_timeoutMicrosecondsToMclks: `timeout_period_us` is a uint32;
the product `timeout_period_us * 1000` and the following sum are uint32
arithmetic. -/
def VL53L0X_timeoutMicrosecondsToMclks (timeout_period_us vcsel_period_pclks : Nat) : Nat :=
  let macroPeriodNs := calcMacroPeriod vcsel_period_pclks
  (timeout_period_us % 4294967296 * 1000 % 4294967296 + macroPeriodNs / 2) % 4294967296
    / macroPeriodNs

/-- decodeVcselPeriod: `((reg_val) + 1) << 1` (int arithmetic; callers
truncate to uint8 where the C does). -/
def decodeVcselPeriod (reg_val : Nat) : Nat := (reg_val + 1) * 2

/-- encodeVcselPeriod: `((period_pclks) >> 1) - 1` stored into a uint8
variable; for `period_pclks < 2` the int value `-1` wraps to 255, hence
the `+ 255` formulation. -/
def encodeVcselPeriod (period_pclks : Nat) : Nat :=
  (period_pclks % 256 / 2 + 255) % 256

/-- The two VCSEL period types of `enum VL53L0X_vcselPeriodType`. -/
inductive VcselPeriodType where
  | VcselPeriodPreRange
  | VcselPeriodFinalRange

/-- VL53L0X_getVcselPulsePeriod: decode the period register of the
requested step; uint8 return truncates. -/
def VL53L0X_getVcselPulsePeriod (m : Machine) (type : VcselPeriodType) : Nat :=
  match type with
  | .VcselPeriodPreRange =>
    decodeVcselPeriod (VL53L0X_readReg m PRE_RANGE_CONFIG_VCSEL_PERIOD) % 256
  | .VcselPeriodFinalRange =>
    decodeVcselPeriod (VL53L0X_readReg m FINAL_RANGE_CONFIG_VCSEL_PERIOD) % 256

/-- Modelled from the spec: `struct VL53L0X_SequenceStepEnables` (defined
in the missing header): five booleans decoded from the sequence-config
byte. -/
structure SequenceStepEnables where
  tcc : Bool
  dss : Bool
  msrc : Bool
  pre_range : Bool
  final_range : Bool

/-- VL53L0X_getSequenceStepEnables: read SYSTEM_SEQUENCE_CONFIG and
extract bits 4, 3, 2, 6, 7 for tcc, dss, msrc, pre_range, final_range. -/
def VL53L0X_getSequenceStepEnables (m : Machine) : SequenceStepEnables :=
  let sequence_config := VL53L0X_readReg m SYSTEM_SEQUENCE_CONFIG
  { tcc := sequence_config >>> 4 &&& 1 == 1
    dss := sequence_config >>> 3 &&& 1 == 1
    msrc := sequence_config >>> 2 &&& 1 == 1
    pre_range := sequence_config >>> 6 &&& 1 == 1
    final_range := sequence_config >>> 7 &&& 1 == 1 }

/-- Modelled from the spec: `struct VL53L0X_SequenceStepTimeouts` (defined
in the missing header): the two vcsel periods and each step's timeout in
mclks and in microseconds. -/
structure SequenceStepTimeouts where
  pre_range_vcsel_period_pclks : Nat
  msrc_dss_tcc_mclks : Nat
  msrc_dss_tcc_us : Nat
  pre_range_mclks : Nat
  pre_range_us : Nat
  final_range_vcsel_period_pclks : Nat
  final_range_mclks : Nat
  final_range_us : Nat

/-- VL53L0X_getSequenceStepTimeouts: read the current periods and
timeouts.  The MSRC/DSS/TCC timeout register holds `value + 1` mclks;
the pre- and final-range timeouts are stored encoded; if pre-range is
enabled the pre-range mclks are subtracted (uint16 arithmetic, hence the
`+ 65536` two's-complement formulation) from the decoded final-range
mclks before the microsecond conversion. -/
def VL53L0X_getSequenceStepTimeouts (m : Machine) (enables : SequenceStepEnables) :
    SequenceStepTimeouts :=
  let pre_range_vcsel_period_pclks := VL53L0X_getVcselPulsePeriod m .VcselPeriodPreRange
  let msrc_dss_tcc_mclks := VL53L0X_readReg m MSRC_CONFIG_TIMEOUT_MACROP + 1
  let msrc_dss_tcc_us :=
    VL53L0X_timeoutMclksToMicroseconds msrc_dss_tcc_mclks pre_range_vcsel_period_pclks
  let pre_range_mclks :=
    VL53L0X_decodeTimeout (VL53L0X_readReg16Bit m PRE_RANGE_CONFIG_TIMEOUT_MACROP_HI)
  let pre_range_us :=
    VL53L0X_timeoutMclksToMicroseconds pre_range_mclks pre_range_vcsel_period_pclks
  let final_range_vcsel_period_pclks := VL53L0X_getVcselPulsePeriod m .VcselPeriodFinalRange
  let final_range_mclks0 :=
    VL53L0X_decodeTimeout (VL53L0X_readReg16Bit m FINAL_RANGE_CONFIG_TIMEOUT_MACROP_HI)
  let final_range_mclks :=
    if enables.pre_range then (final_range_mclks0 + 65536 - pre_range_mclks) % 65536
    else final_range_mclks0
  let final_range_us :=
    VL53L0X_timeoutMclksToMicroseconds final_range_mclks final_range_vcsel_period_pclks
  { pre_range_vcsel_period_pclks := pre_range_vcsel_period_pclks
    msrc_dss_tcc_mclks := msrc_dss_tcc_mclks
    msrc_dss_tcc_us := msrc_dss_tcc_us
    pre_range_mclks := pre_range_mclks
    pre_range_us := pre_range_us
    final_range_vcsel_period_pclks := final_range_vcsel_period_pclks
    final_range_mclks := final_range_mclks
    final_range_us := final_range_us }

/-! Timing budget allocator. -/

/-- The `used_budget_us` accumulated by VL53L0X_setMeasurementTimingBudget
up to and including the final-range overhead: start/end overheads
1320 + 960, then per enabled step its measured microsecond cost plus the
step overhead (tcc 590; dss 690 counted twice, or else msrc 660;
pre-range 660), then the final-range overhead 550.  The intermediate
uint32 additions cannot wrap: each microsecond cost is below `2^32/1000`. -/
def usedBudgetWithFinal (m : Machine) : Nat :=
  let enables := VL53L0X_getSequenceStepEnables m
  let timeouts := VL53L0X_getSequenceStepTimeouts m enables
  1320 + 960
    + (if enables.tcc then timeouts.msrc_dss_tcc_us + 590 else 0)
    + (if enables.dss then 2 * (timeouts.msrc_dss_tcc_us + 690)
       else if enables.msrc then timeouts.msrc_dss_tcc_us + 660 else 0)
    + (if enables.pre_range then timeouts.pre_range_us + 660 else 0)
    + 550

/-- The final-range timeout in mclks allocated from the remaining budget
(`budget_us - used_budget_us` converted at the final-range vcsel period,
assigned to a uint16). -/
def allocatedFinalRangeMclks (m : Machine) (budget_us : Nat) : Nat :=
  let timeouts := VL53L0X_getSequenceStepTimeouts m (VL53L0X_getSequenceStepEnables m)
  VL53L0X_timeoutMicrosecondsToMclks (budget_us % 4294967296 - usedBudgetWithFinal m)
    timeouts.final_range_vcsel_period_pclks % 65536

/-- The mclks value whose encoding is written to the final-range timeout
register: the allocated mclks, plus the pre-range mclks when pre-range
is enabled (`final_range_timeout_mclks += timeouts.pre_range_mclks`,
uint16 arithmetic). -/
def finalRangeTimeoutMclksToWrite (m : Machine) (budget_us : Nat) : Nat :=
  let timeouts := VL53L0X_getSequenceStepTimeouts m (VL53L0X_getSequenceStepEnables m)
  let fr := allocatedFinalRangeMclks m budget_us
  if (VL53L0X_getSequenceStepEnables m).pre_range then (fr + timeouts.pre_range_mclks) % 65536
  else fr

/-- VL53L0X_setMeasurementTimingBudget: fail below the 20000 us minimum;
with final-range enabled, fail when the accumulated overheads exceed the
budget, otherwise encode and write the allocated final-range timeout and
cache the budget on the handle.  With final-range disabled the function
returns true without writing or caching anything.  (The C computes the
enables, timeouts and the used-budget sum once at entry; the helper
definitions above recompute them from the same unmodified machine, which
yields the same values because reads do not change the machine.) -/
def VL53L0X_setMeasurementTimingBudget (m : Machine) (budget_us0 : Nat) : Bool × Machine :=
  let budget_us := budget_us0 % 4294967296
  if budget_us < 20000 then (false, m)
  else if (VL53L0X_getSequenceStepEnables m).final_range then
    if budget_us < usedBudgetWithFinal m then (false, m)
    else
      let m2 := VL53L0X_writeReg16Bit m FINAL_RANGE_CONFIG_TIMEOUT_MACROP_HI
        (VL53L0X_encodeTimeout (finalRangeTimeoutMclksToWrite m budget_us0))
      (true, { m2 with dev := { m2.dev with measurement_timing_budget_us := budget_us } })
  else (true, m)

/-! Polling and calibration. -/

/-- VL53L0X_checkTimeoutExpired: the source returns `0`; the elapsed-time
comparison is commented out. -/
def VL53L0X_checkTimeoutExpired (dev : VL53L0X) : Bool := false

/-- VL53L0X_startTimeout: the source body is commented out (no-op). -/
def VL53L0X_startTimeout (m : Machine) : Machine := m

/-- The polling loop of VL53L0X_performSingleRefCalibration, indexed by
remaining iterations: while the interrupt-status ready bits are clear,
return `false` if the deadline predicate fires, else iterate.  `some b`
is the loop ending with the function about to return `b`; `none` means
the loop is still running after the given number of iterations. -/
def calibrationPoll (m : Machine) : Nat → Option Bool
  | 0 => none
  | n + 1 =>
    if VL53L0X_readReg m RESULT_INTERRUPT_STATUS &&& 0x07 ≠ 0 then some true
    else if VL53L0X_checkTimeoutExpired m.dev then some false
    else calibrationPoll m n

/-- The start-bit polling loop of VL53L0X_readRangeSingleMillimeters,
indexed by remaining iterations: while the SYSRANGE_START start bit is
set, return `false` (the path that sets the sticky flag and returns
65535) if the deadline predicate fires, else iterate. -/
def singleShotPoll (m : Machine) : Nat → Option Bool
  | 0 => none
  | n + 1 =>
    if VL53L0X_readReg m SYSRANGE_START &&& 0x01 = 0 then some true
    else if VL53L0X_checkTimeoutExpired m.dev then some false
    else singleShotPoll m n

/-- VL53L0X_performSingleRefCalibration: start the calibration, poll the
interrupt status, then clear the interrupt and stop.  Reading does not
change the machine and `VL53L0X_checkTimeoutExpired` is constantly
false, so the poll exits iff the ready bits are set at the first read;
`none` models the run that never exits the loop. -/
def VL53L0X_performSingleRefCalibration (m : Machine) (vhv_init_byte : Nat) : Option Machine :=
  let m1 := VL53L0X_writeReg m SYSRANGE_START (0x01 ||| vhv_init_byte)
  if VL53L0X_readReg m1 RESULT_INTERRUPT_STATUS &&& 0x07 ≠ 0 then
    let m2 := VL53L0X_writeReg m1 SYSTEM_INTERRUPT_CLEAR 0x01
    some (VL53L0X_writeReg m2 SYSRANGE_START 0x00)
  else none

/-- VL53L0X_readRangeContinuousMillimeters: read the 16-bit range at
offset 10 into the result block and clear the interrupt. -/
def VL53L0X_readRangeContinuousMillimeters (m : Machine) : Nat × Machine :=
  let range := VL53L0X_readReg16Bit m (RESULT_RANGE_STATUS + 10)
  (range, VL53L0X_writeReg m SYSTEM_INTERRUPT_CLEAR 0x01)

/-- VL53L0X_readRangeSingleMillimeters: restore the stop variable, start
a single-shot measurement, poll until the start bit clears, then read
the range.  As with the calibration poll, the loop exits iff the start
bit is clear at the first read; `none` models the run that never exits
(the 65535 sentinel path is behind `VL53L0X_checkTimeoutExpired`). -/
def VL53L0X_readRangeSingleMillimeters (m : Machine) : Option (Nat × Machine) :=
  let m1 := VL53L0X_writeReg m 0x80 0x01
  let m2 := VL53L0X_writeReg m1 0xFF 0x01
  let m3 := VL53L0X_writeReg m2 0x00 0x00
  let m4 := VL53L0X_writeReg m3 0x91 m.dev.stop_variable
  let m5 := VL53L0X_writeReg m4 0x00 0x01
  let m6 := VL53L0X_writeReg m5 0xFF 0x00
  let m7 := VL53L0X_writeReg m6 0x80 0x00
  let m8 := VL53L0X_writeReg m7 SYSRANGE_START 0x01
  if VL53L0X_readReg m8 SYSRANGE_START &&& 0x01 = 0 then
    some (VL53L0X_readRangeContinuousMillimeters m8)
  else none

/-! Pulse period controller. -/

/-- The MSRC timeout in mclks recomputed at the new pre-range period
(`VL53L0X_timeoutMicrosecondsToMclks(timeouts.msrc_dss_tcc_us,
period_pclks)` assigned to a uint16). -/
def preRangeNewMsrcMclks (m : Machine) (period_pclks : Nat) : Nat :=
  let timeouts := VL53L0X_getSequenceStepTimeouts m (VL53L0X_getSequenceStepEnables m)
  VL53L0X_timeoutMicrosecondsToMclks timeouts.msrc_dss_tcc_us period_pclks % 65536

/-- The byte expression written to MSRC_CONFIG_TIMEOUT_MACROP:
`(new_msrc_timeout_mclks > 256) ? 255 : (new_msrc_timeout_mclks - 1)`.
The `- 1` underflows for 0 (int value -1, converted to the uint8
register write), hence the `+ 65535` two's-complement formulation; the
register write itself truncates to a byte. -/
def msrcSaturated (new_msrc_timeout_mclks : Nat) : Nat :=
  (if 256 < new_msrc_timeout_mclks then 255 else (new_msrc_timeout_mclks + 65535) % 65536) % 256

/-- The pre-range branch of VL53L0X_setVcselPulsePeriod after period
validation: phase-check limits, new encoded period, re-encoded pre-range
timeout at the new period, and the saturated MSRC timeout byte.  The
enables and timeouts were read before any write, so they are computed
from the entry machine. -/
def preRangeStage (m : Machine) (period_pclks : Nat) : Machine :=
  let timeouts := VL53L0X_getSequenceStepTimeouts m (VL53L0X_getSequenceStepEnables m)
  let phase_high := if period_pclks = 12 then 0x18 else if period_pclks = 14 then 0x30
    else if period_pclks = 16 then 0x40 else 0x50
  let m1 := VL53L0X_writeReg m PRE_RANGE_CONFIG_VALID_PHASE_HIGH phase_high
  let m2 := VL53L0X_writeReg m1 PRE_RANGE_CONFIG_VALID_PHASE_LOW 0x08
  let m3 := VL53L0X_writeReg m2 PRE_RANGE_CONFIG_VCSEL_PERIOD (encodeVcselPeriod period_pclks)
  let new_pre_range_timeout_mclks :=
    VL53L0X_timeoutMicrosecondsToMclks timeouts.pre_range_us period_pclks % 65536
  let m4 := VL53L0X_writeReg16Bit m3 PRE_RANGE_CONFIG_TIMEOUT_MACROP_HI
    (VL53L0X_encodeTimeout new_pre_range_timeout_mclks)
  VL53L0X_writeReg m4 MSRC_CONFIG_TIMEOUT_MACROP
    (if 256 < preRangeNewMsrcMclks m period_pclks then 255
     else (preRangeNewMsrcMclks m period_pclks + 65535) % 65536)

/-- The final-range branch of VL53L0X_setVcselPulsePeriod after period
validation: the per-period register table, the new encoded period, and
the re-encoded final-range timeout (with the pre-range mclks re-added
when pre-range is enabled, uint16 arithmetic).  The device distinguishes
ALGO_PHASECAL_LIM (page 1) from ALGO_PHASECAL_CONFIG_TIMEOUT (page 0)
via the 0xFF page-select writes; the flat register file conflates the
two addresses, which none of the stated claims depend on. -/
def finalRangeStage (m : Machine) (period_pclks : Nat) : Machine :=
  let enables := VL53L0X_getSequenceStepEnables m
  let timeouts := VL53L0X_getSequenceStepTimeouts m enables
  let phase_high := if period_pclks = 8 then 0x10 else if period_pclks = 10 then 0x28
    else if period_pclks = 12 then 0x38 else 0x48
  let m1 := VL53L0X_writeReg m FINAL_RANGE_CONFIG_VALID_PHASE_HIGH phase_high
  let m2 := VL53L0X_writeReg m1 FINAL_RANGE_CONFIG_VALID_PHASE_LOW 0x08
  let m3 := VL53L0X_writeReg m2 GLOBAL_CONFIG_VCSEL_WIDTH (if period_pclks = 8 then 0x02 else 0x03)
  let m4 := VL53L0X_writeReg m3 ALGO_PHASECAL_CONFIG_TIMEOUT
    (if period_pclks = 8 then 0x0C else if period_pclks = 10 then 0x09
     else if period_pclks = 12 then 0x08 else 0x07)
  let m5 := VL53L0X_writeReg m4 0xFF 0x01
  let m6 := VL53L0X_writeReg m5 ALGO_PHASECAL_LIM (if period_pclks = 8 then 0x30 else 0x20)
  let m7 := VL53L0X_writeReg m6 0xFF 0x00
  let m8 := VL53L0X_writeReg m7 FINAL_RANGE_CONFIG_VCSEL_PERIOD (encodeVcselPeriod period_pclks)
  let new_final_range_timeout_mclks :=
    VL53L0X_timeoutMicrosecondsToMclks timeouts.final_range_us period_pclks % 65536
  let new_final_range_timeout_mclks2 :=
    if enables.pre_range then (new_final_range_timeout_mclks + timeouts.pre_range_mclks) % 65536
    else new_final_range_timeout_mclks
  VL53L0X_writeReg16Bit m8 FINAL_RANGE_CONFIG_TIMEOUT_MACROP_HI
    (VL53L0X_encodeTimeout new_final_range_timeout_mclks2)

/-- The tail of VL53L0X_setVcselPulsePeriod shared by both branches:
reapply the cached budget — the source discards the Boolean result of
the call — then run a phase calibration under sequence config 0x02 and
restore the previous sequence config.  A phase-calibration poll that
never sees the ready bits makes the whole call diverge (`none`). -/
def vcselFinish (m : Machine) : Option (Bool × Machine) :=
  let m6 := (VL53L0X_setMeasurementTimingBudget m m.dev.measurement_timing_budget_us).2
  let sequence_config := VL53L0X_readReg m6 SYSTEM_SEQUENCE_CONFIG
  let m7 := VL53L0X_writeReg m6 SYSTEM_SEQUENCE_CONFIG 0x02
  (VL53L0X_performSingleRefCalibration m7 0x00).map
    (fun m8 => (true, VL53L0X_writeReg m8 SYSTEM_SEQUENCE_CONFIG sequence_config))

/-- VL53L0X_setVcselPulsePeriod: reject a period outside the step's
allowed set (returning false with the machine untouched — the switch
default is reached before any register write), otherwise apply the
branch's writes and finish with the budget reapplication and phase
calibration. -/
def VL53L0X_setVcselPulsePeriod (m : Machine) (type : VcselPeriodType) (period_pclks : Nat) :
    Option (Bool × Machine) :=
  match type with
  | .VcselPeriodPreRange =>
    if period_pclks = 12 ∨ period_pclks = 14 ∨ period_pclks = 16 ∨ period_pclks = 18 then
      vcselFinish (preRangeStage m period_pclks)
    else some (false, m)
  | .VcselPeriodFinalRange =>
    if period_pclks = 8 ∨ period_pclks = 10 ∨ period_pclks = 12 ∨ period_pclks = 14 then
      vcselFinish (finalRangeStage m period_pclks)
    else some (false, m)

/-! Definitions for the comparison with the specification's words, and
concrete machines used by witnesses and counterexamples. -/

/-- Modelled from the spec: `decode(reg_val: u16) -> u32` returns
`(mantissa << exponent) + 1` where mantissa is the low byte and exponent
the high byte of `reg_val`, with the shift computed in unbounded (u32)
arithmetic rather than truncated to the uint16 the C function returns. -/
def decodeTimeoutSpec (reg_val : Nat) : Nat :=
  reg_val % 65536 % 256 * 2 ^ (reg_val % 65536 / 256) + 1

/-- A device whose registers all read 0: the interrupt-status ready bits
never become set and the SYSRANGE start bit never clears by itself. -/
def neverReadyMachine : Machine :=
  { dev := { address := 0x29, io_2v8 := false, stop_variable := 0
             measurement_timing_budget_us := 0, did_timeout := false }
    regs := fun _ => 0 }

/-- A machine in the driver's default configuration after init: sequence
config 0xE8 (dss, pre-range and final-range enabled), pre-range period
14, final-range period 10, plausible timeout registers, interrupt ready. -/
def defaultConfigMachine : Machine :=
  { dev := { address := 0x29, io_2v8 := false, stop_variable := 0x3C
             measurement_timing_budget_us := 33000, did_timeout := false }
    regs := fun r =>
      if r = SYSTEM_SEQUENCE_CONFIG then 0xE8
      else if r = PRE_RANGE_CONFIG_VCSEL_PERIOD then 6
      else if r = FINAL_RANGE_CONFIG_VCSEL_PERIOD then 4
      else if r = MSRC_CONFIG_TIMEOUT_MACROP then 0x20
      else if r = PRE_RANGE_CONFIG_TIMEOUT_MACROP_HI then 0x01
      else if r = PRE_RANGE_CONFIG_TIMEOUT_MACROP_HI + 1 then 0x45
      else if r = FINAL_RANGE_CONFIG_TIMEOUT_MACROP_HI then 0x01
      else if r = FINAL_RANGE_CONFIG_TIMEOUT_MACROP_HI + 1 then 0x9E
      else if r = RESULT_INTERRUPT_STATUS then 1
      else 0 }

/-- A machine with only pre-range and final-range enabled (sequence
config 0xC0), pre-range period 14, final-range period 10, pre-range
timeout 100 mclks. -/
def preFinalMachine : Machine :=
  { dev := { address := 0x29, io_2v8 := false, stop_variable := 0
             measurement_timing_budget_us := 33000, did_timeout := false }
    regs := fun r =>
      if r = SYSTEM_SEQUENCE_CONFIG then 0xC0
      else if r = PRE_RANGE_CONFIG_VCSEL_PERIOD then 6
      else if r = FINAL_RANGE_CONFIG_VCSEL_PERIOD then 4
      else if r = MSRC_CONFIG_TIMEOUT_MACROP then 0x20
      else if r = PRE_RANGE_CONFIG_TIMEOUT_MACROP_HI + 1 then 99
      else if r = RESULT_INTERRUPT_STATUS then 1
      else 0 }

/-- A machine whose final-range step is disabled (sequence config 0) and
whose handle carries a stale cached budget of 7 us. -/
def noFinalRangeMachine : Machine :=
  { dev := { address := 0x29, io_2v8 := false, stop_variable := 0
             measurement_timing_budget_us := 7, did_timeout := false }
    regs := fun _ => 0 }

/-- A machine whose cached budget is 0 us — any reapplication of the
cached budget fails the 20000 us minimum — and whose interrupt status is
ready so the phase-calibration poll completes. -/
def staleBudgetMachine : Machine :=
  { dev := { address := 0x29, io_2v8 := false, stop_variable := 0
             measurement_timing_budget_us := 0, did_timeout := false }
    regs := fun r =>
      if r = RESULT_INTERRUPT_STATUS then 1
      else if r = SYSTEM_SEQUENCE_CONFIG then 0xE8
      else 0 }

/-! Helper lemmas: the encode loop. -/

/-- The fuel argument of `encLoopAux` is irrelevant once it is at least
`ls`: the loop at least halves `ls` at every iteration. -/
theorem encLoopAux_fuel {f g ls ms : Nat} (hf : ls ≤ f) (hg : ls ≤ g) :
    encLoopAux f ls ms = encLoopAux g ls ms := by
  induction f generalizing g ls ms with
  | zero =>
    interval_cases ls
    cases g with
    | zero => rfl
    | succ g => simp [encLoopAux]
  | succ f ih =>
    cases g with
    | zero =>
      interval_cases ls
      simp [encLoopAux]
    | succ g =>
      simp only [encLoopAux]
      by_cases h : 255 < ls
      · simp only [if_pos h]
        exact ih (by omega) (by omega)
      · simp only [if_neg h]

/-- Loop-shaped unfolding of `encLoop`, matching the source's
`while ((ls_byte & 0xFFFFFF00) > 0) { ls_byte >>= 1; ms_byte++; }`. -/
theorem encLoop_eq (ls ms : Nat) :
    encLoop ls ms = if 255 < ls then encLoop (ls / 2) (ms + 1) else (ls, ms) := by
  unfold encLoop
  cases ls with
  | zero => simp [encLoopAux]
  | succ n =>
    simp only [encLoopAux]
    by_cases h : 255 < n + 1
    · simp only [if_pos h]
      exact encLoopAux_fuel (by omega) (by omega)
    · simp only [if_neg h]


/-- Characterisation of the encode loop: it divides `ls` by a power of
two, adds the exponent to `ms`, leaves at most 8 bits, and the exponent
is minimal (when positive, one fewer shift still exceeded 8 bits). -/
theorem encLoop_spec (ls : Nat) :
    ∀ ms, ∃ e, encLoop ls ms = (ls / 2 ^ e, ms + e) ∧ ls / 2 ^ e ≤ 255 ∧
      (e = 0 ∨ 256 * 2 ^ (e - 1) ≤ ls) := by
  induction ls using Nat.strong_induction_on with
  | _ ls ih =>
    intro ms
    rw [encLoop_eq]
    by_cases h : 255 < ls
    · simp only [if_pos h]
      obtain ⟨e, he, hb, hm⟩ := ih (ls / 2) (by omega) (ms + 1)
      have h2 : (2 : Nat) * 2 ^ e = 2 ^ (e + 1) := by ring
      have hdiv : ls / 2 / 2 ^ e = ls / 2 ^ (e + 1) := by
        rw [Nat.div_div_eq_div_mul, h2]
      refine ⟨e + 1, ?_, ?_, ?_⟩
      · rw [he, hdiv]
        simp only [Prod.mk.injEq]
        exact ⟨trivial, by omega⟩
      · rw [← hdiv]
        exact hb
      · right
        simp only [Nat.add_sub_cancel]
        rcases hm with hm | hm
        · subst hm
          simp only [pow_zero, Nat.mul_one]
          omega
        · rcases e with _ | e2
          · simp only [pow_zero, Nat.mul_one]
            omega
          · have hcalc : (256 : Nat) * 2 ^ (e2 + 1) = 2 * (256 * 2 ^ e2) := by ring
            simp only [Nat.add_sub_cancel] at hm
            omega
    · simp only [if_neg h]
      exact ⟨0, by simp, by simpa using h, Or.inl rfl⟩

/-- Closed form of `VL53L0X_decodeTimeout`. -/
theorem decodeTimeout_eq (x : Nat) :
    VL53L0X_decodeTimeout x
      = (x % 65536 % 256 * 2 ^ (x % 65536 / 256) % 65536 + 1) % 65536 := rfl

/-- Closed form of `VL53L0X_encodeTimeout` on a nonzero uint16 input. -/
theorem encodeTimeout_eq_of_pos (v : Nat) (h : 0 < v % 65536) :
    VL53L0X_encodeTimeout v
      = (encLoop (v % 65536 - 1) 0).2 % 256 * 256 + (encLoop (v % 65536 - 1) 0).1 % 256 := by
  simp only [VL53L0X_encodeTimeout]
  rw [if_pos h]

/-- The encoded timeout always fits a uint16. -/
theorem encodeTimeout_lt (x : Nat) : VL53L0X_encodeTimeout x < 65536 := by
  by_cases h : 0 < x % 65536
  · rw [encodeTimeout_eq_of_pos x h]
    have h1 : (encLoop (x % 65536 - 1) 0).2 % 256 < 256 := Nat.mod_lt _ (by omega)
    have h2 : (encLoop (x % 65536 - 1) 0).1 % 256 < 256 := Nat.mod_lt _ (by omega)
    omega
  · simp only [VL53L0X_encodeTimeout]
    rw [if_neg h]
    omega

/-- The decoded timeout always fits a uint16. -/
theorem decodeTimeout_lt (x : Nat) : VL53L0X_decodeTimeout x < 65536 := by
  rw [decodeTimeout_eq]
  exact Nat.mod_lt _ (by omega)

/-- The truncated shift inside the decoder is never 65535 (it is either
below 256 or even), so the trailing `+ 1` never wraps the final uint16
conversion. -/
theorem decodeTimeout_shift_ne (x : Nat) :
    x % 65536 % 256 * 2 ^ (x % 65536 / 256) % 65536 ≠ 65535 := by
  rcases Nat.eq_zero_or_pos (x % 65536 / 256) with h | h
  · rw [h]
    have : x % 65536 % 256 < 256 := Nat.mod_lt _ (by omega)
    simp only [pow_zero, Nat.mul_one]
    omega
  · have h2 : 2 ∣ x % 65536 % 256 * 2 ^ (x % 65536 / 256) :=
      Dvd.dvd.mul_left (dvd_pow_self 2 (by omega)) _
    have h3 : (2 : Nat) ∣ 65536 := by norm_num
    have h4 : 2 ∣ x % 65536 % 256 * 2 ^ (x % 65536 / 256) % 65536 :=
      (Nat.dvd_mod_iff h3).mpr h2
    omega

/-- The decoded timeout is at least 1. -/
theorem decodeTimeout_pos (x : Nat) : 1 ≤ VL53L0X_decodeTimeout x := by
  rw [decodeTimeout_eq]
  have key := decodeTimeout_shift_ne x
  have hlt : x % 65536 % 256 * 2 ^ (x % 65536 / 256) % 65536 < 65536 := Nat.mod_lt _ (by omega)
  omega

/-- Exact value of decode-after-encode: for a uint16 timeout `v ≥ 1`,
the round trip loses exactly the bits shifted out by the encode loop,
and the loop shifts at most 8 times. -/
theorem decode_encode_eq (v : Nat) (h1 : 1 ≤ v) (h2 : v ≤ 65535) :
    VL53L0X_decodeTimeout (VL53L0X_encodeTimeout v)
      = v - (v - 1) % 2 ^ (encLoop (v - 1) 0).2 ∧ (encLoop (v - 1) 0).2 ≤ 8 := by
  obtain ⟨e, he, hb, hm⟩ := encLoop_spec (v - 1) 0
  have hv : v % 65536 = v := Nat.mod_eq_of_lt (by omega)
  have he2 : (encLoop (v - 1) 0).2 = e := by rw [he]; exact Nat.zero_add e
  have he1 : (encLoop (v - 1) 0).1 = (v - 1) / 2 ^ e := by rw [he]
  have he8 : e ≤ 8 := by
    rcases hm with hm | hm
    · omega
    · by_contra hcon
      have h9 : (2 : Nat) ^ 8 ≤ 2 ^ (e - 1) := Nat.pow_le_pow_right (by norm_num) (by omega)
      have h10 : (256 : Nat) * 2 ^ 8 ≤ 256 * 2 ^ (e - 1) := Nat.mul_le_mul le_rfl h9
      omega
  have henc : VL53L0X_encodeTimeout v = e * 256 + (v - 1) / 2 ^ e := by
    rw [encodeTimeout_eq_of_pos v (by omega), hv, he1, he2]
    rw [Nat.mod_eq_of_lt (show e < 256 by omega),
      Nat.mod_eq_of_lt (show (v - 1) / 2 ^ e < 256 by omega)]
  have hdm : 2 ^ e * ((v - 1) / 2 ^ e) + (v - 1) % 2 ^ e = v - 1 :=
    Nat.div_add_mod (v - 1) (2 ^ e)
  refine ⟨?_, by omega⟩
  rw [he2, henc, decodeTimeout_eq]
  have hw : (e * 256 + (v - 1) / 2 ^ e) % 65536 = e * 256 + (v - 1) / 2 ^ e := by
    apply Nat.mod_eq_of_lt
    omega
  rw [hw]
  have hmod : (e * 256 + (v - 1) / 2 ^ e) % 256 = (v - 1) / 2 ^ e := by omega
  have hdivb : (e * 256 + (v - 1) / 2 ^ e) / 256 = e := by omega
  rw [hmod, hdivb, Nat.mul_comm ((v - 1) / 2 ^ e) (2 ^ e)]
  rw [Nat.mod_eq_of_lt (show 2 ^ e * ((v - 1) / 2 ^ e) < 65536 by omega)]
  rw [Nat.mod_eq_of_lt (by omega)]
  omega

/-- Lossless round trip on 1..256: the encode loop does not shift, so
decode-after-encode is the identity there. -/
theorem decode_encode_exact (v : Nat) (h1 : 1 ≤ v) (h2 : v ≤ 256) :
    VL53L0X_decodeTimeout (VL53L0X_encodeTimeout v) = v := by
  obtain ⟨hval, _⟩ := decode_encode_eq v h1 (by omega)
  have hz : encLoop (v - 1) 0 = (v - 1, 0) := by
    rw [encLoop_eq, if_neg (by omega)]
  rw [hz] at hval
  simpa [Nat.mod_one] using hval

/-! Helper lemmas: register file and frame reasoning. -/

/-- Reading after a write: the written byte at the written address,
unchanged elsewhere. -/
theorem readReg_writeReg (m : Machine) (r a v : Nat) :
    VL53L0X_readReg (VL53L0X_writeReg m a v) r
      = if r = a then v % 256 else VL53L0X_readReg m r := by
  unfold VL53L0X_readReg VL53L0X_writeReg
  by_cases h : r = a
  · simp only [if_pos h]
    omega
  · simp only [if_neg h]

/-- Writes do not change the handle. -/
theorem writeReg_dev (m : Machine) (a v : Nat) :
    (VL53L0X_writeReg m a v).dev = m.dev := rfl

/-- A 16-bit write at `reg` does not change registers other than `reg`
and `reg + 1`. -/
theorem readReg_writeReg16 (m : Machine) (r a v : Nat) (h1 : r ≠ a) (h2 : r ≠ a + 1) :
    VL53L0X_readReg (VL53L0X_writeReg16Bit m a v) r = VL53L0X_readReg m r := by
  unfold VL53L0X_writeReg16Bit
  rw [readReg_writeReg, if_neg h2, readReg_writeReg, if_neg h1]

/-- Reading back a 16-bit write returns the value reduced to a uint16. -/
theorem readReg16_writeReg16 (m : Machine) (a v : Nat) :
    VL53L0X_readReg16Bit (VL53L0X_writeReg16Bit m a v) a = v % 65536 := by
  unfold VL53L0X_readReg16Bit VL53L0X_writeReg16Bit
  rw [readReg_writeReg, if_neg (by omega), readReg_writeReg, if_pos rfl,
    readReg_writeReg, if_pos rfl]
  omega

/-- A 16-bit read only depends on the bytes at `a` and `a + 1`. -/
theorem readReg16_congr (m m2 : Machine) (a : Nat)
    (h1 : VL53L0X_readReg m2 a = VL53L0X_readReg m a)
    (h2 : VL53L0X_readReg m2 (a + 1) = VL53L0X_readReg m (a + 1)) :
    VL53L0X_readReg16Bit m2 a = VL53L0X_readReg16Bit m a := by
  unfold VL53L0X_readReg16Bit
  rw [h1, h2]

/-- The step enables only depend on the sequence-config byte. -/
theorem getSequenceStepEnables_congr (m m2 : Machine)
    (h : VL53L0X_readReg m2 SYSTEM_SEQUENCE_CONFIG = VL53L0X_readReg m SYSTEM_SEQUENCE_CONFIG) :
    VL53L0X_getSequenceStepEnables m2 = VL53L0X_getSequenceStepEnables m := by
  unfold VL53L0X_getSequenceStepEnables
  rw [h]

/-- The step timeouts only depend on the registers the getter reads. -/
theorem getSequenceStepTimeouts_congr (m m2 : Machine) (enables : SequenceStepEnables)
    (h1 : VL53L0X_readReg m2 PRE_RANGE_CONFIG_VCSEL_PERIOD
      = VL53L0X_readReg m PRE_RANGE_CONFIG_VCSEL_PERIOD)
    (h2 : VL53L0X_readReg m2 MSRC_CONFIG_TIMEOUT_MACROP
      = VL53L0X_readReg m MSRC_CONFIG_TIMEOUT_MACROP)
    (h3 : VL53L0X_readReg16Bit m2 PRE_RANGE_CONFIG_TIMEOUT_MACROP_HI
      = VL53L0X_readReg16Bit m PRE_RANGE_CONFIG_TIMEOUT_MACROP_HI)
    (h4 : VL53L0X_readReg m2 FINAL_RANGE_CONFIG_VCSEL_PERIOD
      = VL53L0X_readReg m FINAL_RANGE_CONFIG_VCSEL_PERIOD)
    (h5 : VL53L0X_readReg16Bit m2 FINAL_RANGE_CONFIG_TIMEOUT_MACROP_HI
      = VL53L0X_readReg16Bit m FINAL_RANGE_CONFIG_TIMEOUT_MACROP_HI) :
    VL53L0X_getSequenceStepTimeouts m2 enables = VL53L0X_getSequenceStepTimeouts m enables := by
  unfold VL53L0X_getSequenceStepTimeouts VL53L0X_getVcselPulsePeriod
  rw [h1, h2, h3, h4, h5]

/-- VL53L0X_setMeasurementTimingBudget writes at most the two bytes of
the final-range timeout register. -/
theorem setBudget_regs_frame (m : Machine) (b r : Nat)
    (h1 : r ≠ FINAL_RANGE_CONFIG_TIMEOUT_MACROP_HI)
    (h2 : r ≠ FINAL_RANGE_CONFIG_TIMEOUT_MACROP_HI + 1) :
    VL53L0X_readReg (VL53L0X_setMeasurementTimingBudget m b).2 r = VL53L0X_readReg m r := by
  simp only [VL53L0X_setMeasurementTimingBudget]
  split_ifs with hb hf hu
  · rfl
  · rfl
  · exact readReg_writeReg16 _ _ _ _ h1 h2
  · rfl

/-- On the no-final-range and failure paths the machine is untouched; on
the success path with final-range enabled, the handle caches the budget. -/
theorem setBudget_dev_budget (m : Machine) (b : Nat)
    (hs : (VL53L0X_setMeasurementTimingBudget m b).1 = true)
    (hf : (VL53L0X_getSequenceStepEnables m).final_range = true) :
    ((VL53L0X_setMeasurementTimingBudget m b).2).dev.measurement_timing_budget_us
      = b % 4294967296 := by
  simp only [VL53L0X_setMeasurementTimingBudget] at hs ⊢
  split_ifs at hs ⊢ with h1 h2
  rfl

/-- A successful budget set with final-range enabled implies both guard
conditions held. -/
theorem setBudget_true_conditions (m : Machine) (b : Nat)
    (hs : (VL53L0X_setMeasurementTimingBudget m b).1 = true)
    (hf : (VL53L0X_getSequenceStepEnables m).final_range = true) :
    ¬b % 4294967296 < 20000 ∧ ¬b % 4294967296 < usedBudgetWithFinal m := by
  have c1 : ¬b % 4294967296 < 20000 := by
    intro hc
    simp only [VL53L0X_setMeasurementTimingBudget, if_pos hc] at hs
    simp at hs
  refine ⟨c1, ?_⟩
  intro hc
  simp only [VL53L0X_setMeasurementTimingBudget, if_neg c1, if_pos hf, if_pos hc] at hs
  simp at hs

/-- The machine produced by a successful budget set with final-range
enabled: the encoded final-range timeout is written and the budget is
cached. -/
theorem setBudget_success_eq (m : Machine) (b : Nat)
    (h1 : ¬b % 4294967296 < 20000)
    (hf : (VL53L0X_getSequenceStepEnables m).final_range = true)
    (h2 : ¬b % 4294967296 < usedBudgetWithFinal m) :
    VL53L0X_setMeasurementTimingBudget m b
      = (true,
         { VL53L0X_writeReg16Bit m FINAL_RANGE_CONFIG_TIMEOUT_MACROP_HI
             (VL53L0X_encodeTimeout (finalRangeTimeoutMclksToWrite m b)) with
           dev := { (VL53L0X_writeReg16Bit m FINAL_RANGE_CONFIG_TIMEOUT_MACROP_HI
               (VL53L0X_encodeTimeout (finalRangeTimeoutMclksToWrite m b))).dev with
             measurement_timing_budget_us := b % 4294967296 } }) := by
  simp only [VL53L0X_setMeasurementTimingBudget, if_neg h1, if_pos hf, if_neg h2]

set_option maxRecDepth 8192 in
/-- Success characterisation of the budget setter with final-range
enabled: the final-range timeout register holds the encoding of
`finalRangeTimeoutMclksToWrite`. -/
theorem setBudget_success_reg (m : Machine) (b : Nat)
    (hs : (VL53L0X_setMeasurementTimingBudget m b).1 = true)
    (hf : (VL53L0X_getSequenceStepEnables m).final_range = true) :
    VL53L0X_readReg16Bit (VL53L0X_setMeasurementTimingBudget m b).2
        FINAL_RANGE_CONFIG_TIMEOUT_MACROP_HI
      = VL53L0X_encodeTimeout (finalRangeTimeoutMclksToWrite m b) := by
  obtain ⟨c1, c2⟩ := setBudget_true_conditions m b hs hf
  rw [setBudget_success_eq m b c1 hf c2]
  show VL53L0X_readReg16Bit (VL53L0X_writeReg16Bit m FINAL_RANGE_CONFIG_TIMEOUT_MACROP_HI
    (VL53L0X_encodeTimeout (finalRangeTimeoutMclksToWrite m b)))
    FINAL_RANGE_CONFIG_TIMEOUT_MACROP_HI = _
  exact (readReg16_writeReg16 m _ _).trans (Nat.mod_eq_of_lt (encodeTimeout_lt _))

/-! Claim theorems. -/

/-- C5 (counterexample): the claim that `VL53L0X_decodeTimeout` equals
`(mantissa << exponent) + 1` in unbounded arithmetic for every 16-bit
register value fails at `reg_val = 0x1001` (mantissa 1, exponent 16):
the u16-truncating source function returns 1 while the unbounded formula
gives 65537. -/
theorem C5_decode_counterexample :
    VL53L0X_decodeTimeout 4097 = 1 ∧ decodeTimeoutSpec 4097 = 65537 ∧
      VL53L0X_decodeTimeout 4097 ≠ decodeTimeoutSpec 4097 := by decide

/-- C5 (amended): for every 16-bit register value, `VL53L0X_decodeTimeout`
returns `((mantissa << exponent) mod 2^16) + 1` — the shift is truncated
to the uint16 return type — and this agrees with the unbounded
`(mantissa << exponent) + 1` exactly when the shift fits in 16 bits. -/
theorem C5_decode_formula (reg_val : Nat) (h : reg_val ≤ 65535) :
    VL53L0X_decodeTimeout reg_val = reg_val % 256 * 2 ^ (reg_val / 256) % 65536 + 1
    ∧ (reg_val % 256 * 2 ^ (reg_val / 256) < 65536 →
        VL53L0X_decodeTimeout reg_val = decodeTimeoutSpec reg_val) := by
  have hv : reg_val % 65536 = reg_val := Nat.mod_eq_of_lt (by omega)
  have h1 := decodeTimeout_shift_ne reg_val
  rw [hv] at h1
  rw [decodeTimeout_eq, hv]
  refine ⟨by omega, ?_⟩
  intro hlt
  unfold decodeTimeoutSpec
  rw [hv]
  omega

/-- Witness for C5: concrete instances of both conjuncts at register
values 513 and 4097. -/
theorem C5_decode_formula_witness :
    ((4097 : Nat) ≤ 65535
      ∧ VL53L0X_decodeTimeout 4097 = 4097 % 256 * 2 ^ (4097 / 256) % 65536 + 1)
    ∧ ((513 : Nat) ≤ 65535 ∧ 513 % 256 * 2 ^ (513 / 256) < 65536
      ∧ VL53L0X_decodeTimeout 513 = decodeTimeoutSpec 513) :=
  ⟨⟨by decide, (C5_decode_formula 4097 (by decide)).1⟩,
   ⟨by decide, by decide, (C5_decode_formula 513 (by decide)).2 (by decide)⟩⟩

/-- C6: the encode/decode round trip is the identity on 1..256 (no shift
happens there), and for every uint16 value `v ≥ 1` the round trip result
is at most `v`, with the difference exactly the bits of `v - 1` shifted
out by the encode loop — in particular below `2^e` where `e` is the
number of right shifts performed. -/
theorem C6_encode_decode_roundtrip (v : Nat) :
    (1 ≤ v → v ≤ 256 → VL53L0X_decodeTimeout (VL53L0X_encodeTimeout v) = v)
    ∧ (1 ≤ v → v ≤ 65535 →
        VL53L0X_decodeTimeout (VL53L0X_encodeTimeout v) ≤ v
        ∧ v - VL53L0X_decodeTimeout (VL53L0X_encodeTimeout v)
            = (v - 1) % 2 ^ (encLoop (v - 1) 0).2
        ∧ (v - 1) % 2 ^ (encLoop (v - 1) 0).2 < 2 ^ (encLoop (v - 1) 0).2) := by
  constructor
  · exact fun h1 h2 => decode_encode_exact v h1 h2
  · intro h1 h2
    obtain ⟨heq, he8⟩ := decode_encode_eq v h1 h2
    have hpos : 1 ≤ VL53L0X_decodeTimeout (VL53L0X_encodeTimeout v) := decodeTimeout_pos _
    have hmlt : (v - 1) % 2 ^ (encLoop (v - 1) 0).2 < 2 ^ (encLoop (v - 1) 0).2 :=
      Nat.mod_lt _ (pow_pos (by norm_num) _)
    have hmle : (v - 1) % 2 ^ (encLoop (v - 1) 0).2 ≤ v - 1 := Nat.mod_le _ _
    exact ⟨by omega, by omega, hmlt⟩

/-- Witness for C6: the round trip is the identity at 100, and at 655
(which shifts twice) the round trip result is below 655 by exactly
`654 % 4 = 2`. -/
theorem C6_encode_decode_roundtrip_witness :
    ((1 : Nat) ≤ 100 ∧ (100 : Nat) ≤ 256
      ∧ VL53L0X_decodeTimeout (VL53L0X_encodeTimeout 100) = 100)
    ∧ ((1 : Nat) ≤ 655 ∧ (655 : Nat) ≤ 65535
      ∧ VL53L0X_decodeTimeout (VL53L0X_encodeTimeout 655) ≤ 655
      ∧ 655 - VL53L0X_decodeTimeout (VL53L0X_encodeTimeout 655)
          = (655 - 1) % 2 ^ (encLoop (655 - 1) 0).2) :=
  ⟨⟨by decide, by decide, (C6_encode_decode_roundtrip 100).1 (by decide) (by decide)⟩,
   ⟨by decide, by decide,
    ((C6_encode_decode_roundtrip 655).2 (by decide) (by decide)).1,
    ((C6_encode_decode_roundtrip 655).2 (by decide) (by decide)).2.1⟩⟩

/-- C7 (counterexample): the microsecond-side round trip is not within
one microsecond: at pulse period 10, converting 5000 us to mclks and
back yields 5014 us, 14 us above the start. -/
theorem C7_roundtrip_counterexample :
    VL53L0X_timeoutMclksToMicroseconds (VL53L0X_timeoutMicrosecondsToMclks 5000 10) 10 = 5014
    ∧ 5000 + 1 <
        VL53L0X_timeoutMclksToMicroseconds (VL53L0X_timeoutMicrosecondsToMclks 5000 10) 10 := by
  decide

/-- Round trip mclks-to-us-to-mclks in exact arithmetic (no uint32
wrap), for any macro period of at least 1000 ns: the result is `clks` or
`clks + 1`. -/
theorem conv_roundtrip_clks (m clks : Nat) (hm : 1000 ≤ m) :
    ((clks * m + m / 2) / 1000 * 1000 + m / 2) / m = clks
    ∨ ((clks * m + m / 2) / 1000 * 1000 + m / 2) / m = clks + 1 := by
  have hY1 : clks * m ≤ (clks * m + m / 2) / 1000 * 1000 + m / 2 := by omega
  have hY2 : (clks * m + m / 2) / 1000 * 1000 + m / 2 ≤ (clks + 1) * m := by
    have h : (clks + 1) * m = clks * m + m := by ring
    omega
  have hlo : clks ≤ ((clks * m + m / 2) / 1000 * 1000 + m / 2) / m :=
    (Nat.le_div_iff_mul_le (by omega)).mpr hY1
  have hhi : ((clks * m + m / 2) / 1000 * 1000 + m / 2) / m ≤ clks + 1 := by
    have h2 : ((clks * m + m / 2) / 1000 * 1000 + m / 2) / m ≤ (clks + 1) * m / m :=
      Nat.div_le_div_right hY2
    rwa [Nat.mul_div_cancel _ (show 0 < m by omega)] at h2
  omega

/-- Round trip us-to-mclks-to-us in exact arithmetic (no uint32 wrap),
for any macro period of at least 1000 ns: the result never undershoots
`us` and overshoots by at most one macro period in microseconds. -/
theorem conv_roundtrip_us (m us : Nat) (hm : 1000 ≤ m) :
    us ≤ ((us * 1000 + m / 2) / m * m + m / 2) / 1000
    ∧ ((us * 1000 + m / 2) / m * m + m / 2) / 1000 ≤ us + m / 1000 := by
  have hX : (us * 1000 + m / 2) / m * m + (us * 1000 + m / 2) % m = us * 1000 + m / 2 :=
    Nat.div_add_mod' _ m
  have hr : (us * 1000 + m / 2) % m < m := Nat.mod_lt _ (by omega)
  constructor <;> omega

/-- C7 (amended): for every valid pulse period, the clock-side round
trip (mclks to microseconds and back) is within one clock — it returns
`clks` or `clks + 1` — for every uint16 clock count whose uint32
computations do not wrap; the microsecond-side round trip never loses
time but may overshoot by up to one macro period (`macro_period_ns /
1000` microseconds), not by at most one microsecond. -/
theorem C7_conversion_roundtrip (p : Nat)
    (hp : p = 8 ∨ p = 10 ∨ p = 12 ∨ p = 14 ∨ p = 16 ∨ p = 18) :
    (∀ clks, clks ≤ 65535 →
      clks * calcMacroPeriod p + calcMacroPeriod p < 4294967296 →
      VL53L0X_timeoutMicrosecondsToMclks (VL53L0X_timeoutMclksToMicroseconds clks p) p = clks
      ∨ VL53L0X_timeoutMicrosecondsToMclks (VL53L0X_timeoutMclksToMicroseconds clks p) p
          = clks + 1)
    ∧ (∀ us, us * 1000 + calcMacroPeriod p < 4294967296 →
        VL53L0X_timeoutMicrosecondsToMclks us p ≤ 65535 →
        us ≤ VL53L0X_timeoutMclksToMicroseconds (VL53L0X_timeoutMicrosecondsToMclks us p) p
        ∧ VL53L0X_timeoutMclksToMicroseconds (VL53L0X_timeoutMicrosecondsToMclks us p) p
            ≤ us + calcMacroPeriod p / 1000) := by
  have hm : 1000 ≤ calcMacroPeriod p := by
    rcases hp with rfl | rfl | rfl | rfl | rfl | rfl <;> decide
  constructor
  · intro clks h1 h2
    simp only [VL53L0X_timeoutMclksToMicroseconds, VL53L0X_timeoutMicrosecondsToMclks]
    set m := calcMacroPeriod p with hmdef
    rw [show clks % 65536 = clks by omega]
    rw [Nat.mod_eq_of_lt (show clks * m + m / 2 < 4294967296 by omega)]
    rw [Nat.mod_eq_of_lt (show (clks * m + m / 2) / 1000 < 4294967296 by omega)]
    rw [Nat.mod_eq_of_lt (show (clks * m + m / 2) / 1000 * 1000 < 4294967296 by omega)]
    rw [Nat.mod_eq_of_lt
      (show (clks * m + m / 2) / 1000 * 1000 + m / 2 < 4294967296 by omega)]
    exact conv_roundtrip_clks m clks hm
  · intro us h1 h2
    simp only [VL53L0X_timeoutMclksToMicroseconds, VL53L0X_timeoutMicrosecondsToMclks]
      at h2 ⊢
    set m := calcMacroPeriod p with hmdef
    rw [Nat.mod_eq_of_lt (show us < 4294967296 by omega),
      Nat.mod_eq_of_lt (show us * 1000 < 4294967296 by omega),
      Nat.mod_eq_of_lt (show us * 1000 + m / 2 < 4294967296 by omega)] at h2 ⊢
    have hC : (us * 1000 + m / 2) / m * m + (us * 1000 + m / 2) % m = us * 1000 + m / 2 :=
      Nat.div_add_mod' _ m
    have hCr : (us * 1000 + m / 2) % m < m := Nat.mod_lt _ (by omega)
    rw [Nat.mod_eq_of_lt (show (us * 1000 + m / 2) / m < 65536 by omega)]
    rw [Nat.mod_eq_of_lt
      (show (us * 1000 + m / 2) / m * m + m / 2 < 4294967296 by omega)]
    exact conv_roundtrip_us m us hm

/-- Witness for C7: at period 10, 500 mclks round-trips within one
clock, and 30000 us round-trips without loss and within one macro
period. -/
theorem C7_conversion_roundtrip_witness :
    ((500 : Nat) ≤ 65535 ∧ 500 * calcMacroPeriod 10 + calcMacroPeriod 10 < 4294967296
      ∧ (VL53L0X_timeoutMicrosecondsToMclks (VL53L0X_timeoutMclksToMicroseconds 500 10) 10 = 500
        ∨ VL53L0X_timeoutMicrosecondsToMclks (VL53L0X_timeoutMclksToMicroseconds 500 10) 10
            = 500 + 1))
    ∧ ((30000 : Nat) * 1000 + calcMacroPeriod 10 < 4294967296
      ∧ VL53L0X_timeoutMicrosecondsToMclks 30000 10 ≤ 65535
      ∧ 30000 ≤ VL53L0X_timeoutMclksToMicroseconds
          (VL53L0X_timeoutMicrosecondsToMclks 30000 10) 10
      ∧ VL53L0X_timeoutMclksToMicroseconds (VL53L0X_timeoutMicrosecondsToMclks 30000 10) 10
          ≤ 30000 + calcMacroPeriod 10 / 1000) :=
  ⟨⟨by decide, by decide,
    (C7_conversion_roundtrip 10 (by decide)).1 500 (by decide) (by decide)⟩,
   ⟨by decide, by decide,
    ((C7_conversion_roundtrip 10 (by decide)).2 30000 (by decide) (by decide)).1,
    ((C7_conversion_roundtrip 10 (by decide)).2 30000 (by decide) (by decide)).2⟩⟩

/-- C2: the budget setter fails for every uint32 budget below 20000 us;
with final-range enabled it fails exactly when the fixed overheads
(1320 + 960 start/end, 550 final-range) plus the enabled steps' measured
costs and overheads (tcc 590, dss 690 counted twice or else msrc 660,
pre-range 660) exceed the budget; with final-range disabled it succeeds. -/
theorem C2_budget_feasibility (mach : Machine) (b : Nat) (hb : b < 4294967296) :
    (b < 20000 → (VL53L0X_setMeasurementTimingBudget mach b).1 = false)
    ∧ ((VL53L0X_getSequenceStepEnables mach).final_range = true → 20000 ≤ b →
        ((VL53L0X_setMeasurementTimingBudget mach b).1 = false
          ↔ b < usedBudgetWithFinal mach))
    ∧ ((VL53L0X_getSequenceStepEnables mach).final_range = false → 20000 ≤ b →
        (VL53L0X_setMeasurementTimingBudget mach b).1 = true) := by
  have hmod : b % 4294967296 = b := Nat.mod_eq_of_lt hb
  simp only [VL53L0X_setMeasurementTimingBudget, hmod]
  refine ⟨fun h => ?_, fun hf h => ?_, fun hf h => ?_⟩
  · rw [if_pos h]
  · rw [if_neg (show ¬b < 20000 by omega), if_pos hf]
    by_cases hu : b < usedBudgetWithFinal mach
    · rw [if_pos hu]
      simpa using hu
    · rw [if_neg hu]
      simpa using hu
  · rw [if_neg (show ¬b < 20000 by omega),
      if_neg (show ¬(VL53L0X_getSequenceStepEnables mach).final_range = true by simp [hf])]

/-- Witness for C2: on the default configuration, 10000 us is rejected,
33000 us is checked against the used-budget sum; with final-range
disabled a 20000 us budget succeeds. -/
theorem C2_budget_feasibility_witness :
    ((10000 : Nat) < 4294967296 ∧ (10000 : Nat) < 20000
      ∧ (VL53L0X_setMeasurementTimingBudget defaultConfigMachine 10000).1 = false)
    ∧ ((33000 : Nat) < 4294967296
      ∧ (VL53L0X_getSequenceStepEnables defaultConfigMachine).final_range = true
      ∧ (20000 : Nat) ≤ 33000
      ∧ ((VL53L0X_setMeasurementTimingBudget defaultConfigMachine 33000).1 = false
          ↔ 33000 < usedBudgetWithFinal defaultConfigMachine))
    ∧ ((VL53L0X_getSequenceStepEnables noFinalRangeMachine).final_range = false
      ∧ (VL53L0X_setMeasurementTimingBudget noFinalRangeMachine 20000).1 = true) :=
  ⟨⟨by decide, by decide,
    (C2_budget_feasibility defaultConfigMachine 10000 (by decide)).1 (by decide)⟩,
   ⟨by decide, by decide, by decide,
    (C2_budget_feasibility defaultConfigMachine 33000 (by decide)).2.1 (by decide) (by decide)⟩,
   ⟨by decide,
    (C2_budget_feasibility noFinalRangeMachine 20000 (by decide)).2.2 (by decide) (by decide)⟩⟩

/-- C8 (counterexample): with final-range disabled, the budget setter
returns success without caching the requested budget: on a handle whose
cached budget is 7 us, setting 20000 us returns true and leaves the
cache at 7. -/
theorem C8_cache_counterexample :
    (VL53L0X_setMeasurementTimingBudget noFinalRangeMachine 20000).1 = true
    ∧ ((VL53L0X_setMeasurementTimingBudget noFinalRangeMachine
        20000).2).dev.measurement_timing_budget_us = 7
    ∧ ¬((VL53L0X_setMeasurementTimingBudget noFinalRangeMachine
        20000).2).dev.measurement_timing_budget_us = 20000 := by decide

/-- C8 (amended): on success the cached budget equals the requested
uint32 budget whenever the final-range step is enabled; with final-range
disabled the function succeeds without touching the machine at all, so
the cache keeps its previous value. -/
theorem C8_budget_cached_on_success (mach : Machine) (b : Nat)
    (hs : (VL53L0X_setMeasurementTimingBudget mach b).1 = true) :
    ((VL53L0X_getSequenceStepEnables mach).final_range = true →
      ((VL53L0X_setMeasurementTimingBudget mach b).2).dev.measurement_timing_budget_us
        = b % 4294967296)
    ∧ ((VL53L0X_getSequenceStepEnables mach).final_range = false →
      (VL53L0X_setMeasurementTimingBudget mach b).2 = mach) := by
  constructor
  · intro hf
    exact setBudget_dev_budget mach b hs hf
  · intro hf
    simp only [VL53L0X_setMeasurementTimingBudget] at hs ⊢
    split_ifs at hs ⊢ with h1 h2
    · exact absurd h2 (by simp [hf])
    · rfl

/-- Witness for C8: a successful 33000 us set on the default
configuration caches 33000 on the handle. -/
theorem C8_budget_cached_on_success_witness :
    (VL53L0X_setMeasurementTimingBudget defaultConfigMachine 33000).1 = true
    ∧ (VL53L0X_getSequenceStepEnables defaultConfigMachine).final_range = true
    ∧ ((VL53L0X_setMeasurementTimingBudget defaultConfigMachine
        33000).2).dev.measurement_timing_budget_us = 33000 % 4294967296 :=
  ⟨by decide, by decide,
   (C8_budget_cached_on_success defaultConfigMachine 33000 (by decide)).1 (by decide)⟩

/-- VL53L0X_performSingleRefCalibration writes only SYSRANGE_START and
SYSTEM_INTERRUPT_CLEAR when it completes. -/
theorem performSingleRefCalibration_frame (m : Machine) (v r : Nat)
    (h1 : r ≠ SYSRANGE_START) (h2 : r ≠ SYSTEM_INTERRUPT_CLEAR) :
    ∀ m2, VL53L0X_performSingleRefCalibration m v = some m2 →
      VL53L0X_readReg m2 r = VL53L0X_readReg m r := by
  intro m2 h
  simp only [VL53L0X_performSingleRefCalibration] at h
  split_ifs at h with hc
  injection h with h
  subst h
  rw [readReg_writeReg, if_neg h1, readReg_writeReg, if_neg h2, readReg_writeReg, if_neg h1]

/-- When `vcselFinish` completes it returns `true` regardless of the
outcome of the budget reapplication. -/
theorem vcselFinish_fst (m : Machine) :
    Option.map Prod.fst (vcselFinish m) = some true ∨ vcselFinish m = none := by
  simp only [vcselFinish]
  cases VL53L0X_performSingleRefCalibration
      (VL53L0X_writeReg
        (VL53L0X_setMeasurementTimingBudget m m.dev.measurement_timing_budget_us).2
        SYSTEM_SEQUENCE_CONFIG 0x02) 0x00 with
  | none => right; rfl
  | some m8 => left; rfl

/-- Registers other than the final-range timeout pair, the sequence
config, SYSRANGE_START and the interrupt-clear register survive
`vcselFinish` unchanged. -/
theorem vcselFinish_reg (m : Machine) (r : Nat)
    (hA : r ≠ FINAL_RANGE_CONFIG_TIMEOUT_MACROP_HI)
    (hB : r ≠ FINAL_RANGE_CONFIG_TIMEOUT_MACROP_HI + 1)
    (hC : r ≠ SYSTEM_SEQUENCE_CONFIG)
    (hD : r ≠ SYSRANGE_START)
    (hE : r ≠ SYSTEM_INTERRUPT_CLEAR) :
    Option.map (fun t => VL53L0X_readReg t.2 r) (vcselFinish m)
      = Option.map (fun _ => VL53L0X_readReg m r) (vcselFinish m) := by
  simp only [vcselFinish, Option.map_map]
  refine Option.map_congr ?_
  intro m8 hm8
  rw [Option.mem_def] at hm8
  show VL53L0X_readReg (VL53L0X_writeReg m8 SYSTEM_SEQUENCE_CONFIG _) r = VL53L0X_readReg m r
  rw [readReg_writeReg, if_neg hC]
  rw [performSingleRefCalibration_frame _ 0x00 r hD hE m8 hm8]
  rw [readReg_writeReg, if_neg hC]
  exact setBudget_regs_frame m _ r hA hB

/-- C9: VL53L0X_setVcselPulsePeriod rejects every period outside the
step's allowed set (pre-range 12/14/16/18, final-range 8/10/12/14),
returning false with the machine completely untouched — the switch
default is reached before any register write. -/
theorem C9_invalid_period_rejected (mach : Machine) (p : Nat) :
    (¬(p = 12 ∨ p = 14 ∨ p = 16 ∨ p = 18) →
      VL53L0X_setVcselPulsePeriod mach .VcselPeriodPreRange p = some (false, mach))
    ∧ (¬(p = 8 ∨ p = 10 ∨ p = 12 ∨ p = 14) →
      VL53L0X_setVcselPulsePeriod mach .VcselPeriodFinalRange p = some (false, mach)) := by
  constructor <;> intro h <;>
    simp only [VL53L0X_setVcselPulsePeriod, if_neg h]

/-- Witness for C9: period 13 is rejected untouched on both steps. -/
theorem C9_invalid_period_rejected_witness :
    ¬((13 : Nat) = 12 ∨ (13 : Nat) = 14 ∨ (13 : Nat) = 16 ∨ (13 : Nat) = 18)
    ∧ VL53L0X_setVcselPulsePeriod defaultConfigMachine .VcselPeriodPreRange 13
        = some (false, defaultConfigMachine)
    ∧ ¬((13 : Nat) = 8 ∨ (13 : Nat) = 10 ∨ (13 : Nat) = 12 ∨ (13 : Nat) = 14)
    ∧ VL53L0X_setVcselPulsePeriod defaultConfigMachine .VcselPeriodFinalRange 13
        = some (false, defaultConfigMachine) :=
  ⟨by decide, (C9_invalid_period_rejected defaultConfigMachine 13).1 (by decide),
   by decide, (C9_invalid_period_rejected defaultConfigMachine 13).2 (by decide)⟩

/-- C3 (counterexample): on a handle whose cached budget is 0 us, the
budget reapplication inside VL53L0X_setVcselPulsePeriod fails (0 is
below the 20000 us minimum), yet the call returns true: the failure does
not propagate. -/
theorem C3_budget_failure_not_propagated :
    Option.map Prod.fst
        (VL53L0X_setVcselPulsePeriod staleBudgetMachine .VcselPeriodPreRange 12) = some true
    ∧ (VL53L0X_setMeasurementTimingBudget (preRangeStage staleBudgetMachine 12)
        ((preRangeStage staleBudgetMachine 12).dev.measurement_timing_budget_us)).1
      = false := by
  decide

/-- C3 (amended): VL53L0X_setVcselPulsePeriod discards the result of the
budget reapplication: for every valid period it either diverges in the
phase-calibration poll or returns true, never a failure caused by the
reapplication. -/
theorem C3_vcsel_ignores_budget_result (mach : Machine) (p : Nat) :
    ((p = 12 ∨ p = 14 ∨ p = 16 ∨ p = 18) →
      Option.map Prod.fst
          (VL53L0X_setVcselPulsePeriod mach .VcselPeriodPreRange p) = some true
      ∨ VL53L0X_setVcselPulsePeriod mach .VcselPeriodPreRange p = none)
    ∧ ((p = 8 ∨ p = 10 ∨ p = 12 ∨ p = 14) →
      Option.map Prod.fst
          (VL53L0X_setVcselPulsePeriod mach .VcselPeriodFinalRange p) = some true
      ∨ VL53L0X_setVcselPulsePeriod mach .VcselPeriodFinalRange p = none) := by
  constructor <;> intro h <;>
  · simp only [VL53L0X_setVcselPulsePeriod, if_pos h]
    exact vcselFinish_fst _

/-- Witness for C3 (amended): at the concrete stale-budget machine the
valid period 12 yields `some true`. -/
theorem C3_vcsel_ignores_budget_result_witness :
    ((12 : Nat) = 12 ∨ (12 : Nat) = 14 ∨ (12 : Nat) = 16 ∨ (12 : Nat) = 18)
    ∧ (Option.map Prod.fst
          (VL53L0X_setVcselPulsePeriod staleBudgetMachine .VcselPeriodPreRange 12) = some true
      ∨ VL53L0X_setVcselPulsePeriod staleBudgetMachine .VcselPeriodPreRange 12 = none) :=
  ⟨by decide, (C3_vcsel_ignores_budget_result staleBudgetMachine 12).1 (by decide)⟩

/-- C4 (code bug): no polling loop in the driver is bounded by the
elapsed-time deadline: `VL53L0X_checkTimeoutExpired` returns false
unconditionally (its body is commented out in the source), so on a
device that never reports ready the calibration poll runs forever for
every iteration count instead of returning CalibrationTimedOut, the
single-shot start-bit poll runs forever instead of setting the sticky
flag and returning 65535, and consequently
`VL53L0X_performSingleRefCalibration` and
`VL53L0X_readRangeSingleMillimeters` never return on such a device. -/
theorem C4_polling_never_bounded :
    (∀ dev, VL53L0X_checkTimeoutExpired dev = false)
    ∧ (∀ fuel, calibrationPoll neverReadyMachine fuel = none)
    ∧ (∀ (mach : Machine) fuel,
        singleShotPoll (VL53L0X_writeReg mach SYSRANGE_START 0x01) fuel = none)
    ∧ (∀ vhv, VL53L0X_performSingleRefCalibration neverReadyMachine vhv = none)
    ∧ (∀ mach, VL53L0X_readRangeSingleMillimeters mach = none) := by
  refine ⟨fun dev => rfl, ?_, ?_, ?_, ?_⟩
  · intro fuel
    induction fuel with
    | zero => rfl
    | succ n ih =>
      simp only [calibrationPoll, VL53L0X_checkTimeoutExpired]
      rw [if_neg (by decide), if_neg (by decide)]
      exact ih
  · intro mach fuel
    induction fuel with
    | zero => rfl
    | succ n ih =>
      simp only [singleShotPoll, VL53L0X_checkTimeoutExpired]
      rw [if_neg (by rw [readReg_writeReg, if_pos rfl]; decide), if_neg (by decide)]
      exact ih
  · intro vhv
    simp only [VL53L0X_performSingleRefCalibration]
    rw [if_neg (by rw [readReg_writeReg, if_neg (by decide)]; decide)]
  · intro mach
    simp only [VL53L0X_readRangeSingleMillimeters]
    rw [if_neg (by rw [readReg_writeReg, if_pos rfl]; decide)]

/-- C10: the byte written to the MSRC timeout register by a pre-range
period change saturates: writing the recomputed mclks value through
`msrcSaturated`, which is 255 whenever the value exceeds 256, wraps 0 to
255 under the unsigned `- 1`, equals value minus one on 1..256, and is
always a byte; the written register survives the rest of the call
unchanged. -/
theorem C10_msrc_saturation (mach : Machine) (p : Nat) :
    ((p = 12 ∨ p = 14 ∨ p = 16 ∨ p = 18) →
      VL53L0X_readReg (preRangeStage mach p) MSRC_CONFIG_TIMEOUT_MACROP
          = msrcSaturated (preRangeNewMsrcMclks mach p)
      ∧ Option.map (fun t => VL53L0X_readReg t.2 MSRC_CONFIG_TIMEOUT_MACROP)
            (VL53L0X_setVcselPulsePeriod mach .VcselPeriodPreRange p)
          = Option.map (fun _ => msrcSaturated (preRangeNewMsrcMclks mach p))
            (VL53L0X_setVcselPulsePeriod mach .VcselPeriodPreRange p))
    ∧ (∀ v, v ≤ 65535 →
        msrcSaturated v ≤ 255
        ∧ (256 < v → msrcSaturated v = 255)
        ∧ (v = 0 → msrcSaturated v = 255)
        ∧ (1 ≤ v → v ≤ 256 → msrcSaturated v = v - 1)) := by
  constructor
  · intro h
    have hstage : VL53L0X_readReg (preRangeStage mach p) MSRC_CONFIG_TIMEOUT_MACROP
        = msrcSaturated (preRangeNewMsrcMclks mach p) := by
      show VL53L0X_readReg (VL53L0X_writeReg _ MSRC_CONFIG_TIMEOUT_MACROP _)
        MSRC_CONFIG_TIMEOUT_MACROP = _
      rw [readReg_writeReg, if_pos rfl]
      rfl
    refine ⟨hstage, ?_⟩
    simp only [VL53L0X_setVcselPulsePeriod, if_pos h]
    refine (vcselFinish_reg (preRangeStage mach p) MSRC_CONFIG_TIMEOUT_MACROP
      (by decide) (by decide) (by decide) (by decide) (by decide)).trans ?_
    rw [hstage]
  · intro v hv
    simp only [msrcSaturated]
    split_ifs with hgt
    · exact ⟨by omega, fun _ => by omega, by omega, by omega⟩
    · exact ⟨by omega, fun hc => absurd hc hgt, fun h0 => by omega, fun h1 h2 => by omega⟩

/-- Witness for C10: at the default configuration with new pre-range
period 12 the register byte equals the saturated recomputed value, and
the characterisation holds at that value. -/
theorem C10_msrc_saturation_witness :
    ((12 : Nat) = 12 ∨ (12 : Nat) = 14 ∨ (12 : Nat) = 16 ∨ (12 : Nat) = 18)
    ∧ VL53L0X_readReg (preRangeStage defaultConfigMachine 12) MSRC_CONFIG_TIMEOUT_MACROP
        = msrcSaturated (preRangeNewMsrcMclks defaultConfigMachine 12)
    ∧ preRangeNewMsrcMclks defaultConfigMachine 12 ≤ 65535
    ∧ msrcSaturated (preRangeNewMsrcMclks defaultConfigMachine 12) ≤ 255 :=
  ⟨by decide, ((C10_msrc_saturation defaultConfigMachine 12).1 (by decide)).1,
   by decide,
   ((C10_msrc_saturation defaultConfigMachine 12).2
     (preRangeNewMsrcMclks defaultConfigMachine 12) (by decide)).1⟩

/-- C1: with pre-range and final-range enabled, a successful budget set
writes the encoding of (allocated final-range mclks plus pre-range
mclks) and the timeout getter subtracts the same pre-range mclks back:
the read-back final-range mclks plus the pre-range mclks equals the
decode of that encoding (uint16 arithmetic), so when no uint16 overflow
occurs and the decoded value is at least the pre-range mclks the
read-back value is the allocated value minus exactly the encode
rounding, and it is the allocated value itself whenever the written sum
fits the lossless 1..256 range. -/
theorem C1_final_range_additive (mach : Machine) (budget : Nat)
    (hs : (VL53L0X_setMeasurementTimingBudget mach budget).1 = true)
    (hpre : (VL53L0X_getSequenceStepEnables mach).pre_range = true)
    (hfin : (VL53L0X_getSequenceStepEnables mach).final_range = true) :
    let p := (VL53L0X_getSequenceStepTimeouts mach
      (VL53L0X_getSequenceStepEnables mach)).pre_range_mclks
    let y := allocatedFinalRangeMclks mach budget
    let m2 := (VL53L0X_setMeasurementTimingBudget mach budget).2
    let fr := (VL53L0X_getSequenceStepTimeouts m2
      (VL53L0X_getSequenceStepEnables m2)).final_range_mclks
    ((fr + p) % 65536 = VL53L0X_decodeTimeout (VL53L0X_encodeTimeout ((y + p) % 65536)))
    ∧ (y + p ≤ 65535 →
        VL53L0X_decodeTimeout (VL53L0X_encodeTimeout (y + p)) ≤ y + p
        ∧ (p ≤ VL53L0X_decodeTimeout (VL53L0X_encodeTimeout (y + p)) →
            fr ≤ y
            ∧ y - fr = (y + p) - VL53L0X_decodeTimeout (VL53L0X_encodeTimeout (y + p))
            ∧ (y + p ≤ 256 → fr = y))) := by
  intro p y m2 fr
  have hEn : VL53L0X_getSequenceStepEnables m2 = VL53L0X_getSequenceStepEnables mach :=
    getSequenceStepEnables_congr _ _ (setBudget_regs_frame mach budget _ (by decide) (by decide))
  have hreg : VL53L0X_readReg16Bit m2 FINAL_RANGE_CONFIG_TIMEOUT_MACROP_HI
      = VL53L0X_encodeTimeout (finalRangeTimeoutMclksToWrite mach budget) :=
    setBudget_success_reg mach budget hs hfin
  have hpre2 : VL53L0X_readReg16Bit m2 PRE_RANGE_CONFIG_TIMEOUT_MACROP_HI
      = VL53L0X_readReg16Bit mach PRE_RANGE_CONFIG_TIMEOUT_MACROP_HI :=
    readReg16_congr _ _ _ (setBudget_regs_frame mach budget _ (by decide) (by decide))
      (setBudget_regs_frame mach budget _ (by decide) (by decide))
  have hp_eq : p = VL53L0X_decodeTimeout
      (VL53L0X_readReg16Bit mach PRE_RANGE_CONFIG_TIMEOUT_MACROP_HI) := rfl
  have hfr0 : fr = if (VL53L0X_getSequenceStepEnables m2).pre_range
      then (VL53L0X_decodeTimeout
              (VL53L0X_readReg16Bit m2 FINAL_RANGE_CONFIG_TIMEOUT_MACROP_HI)
            + 65536
            - VL53L0X_decodeTimeout
                (VL53L0X_readReg16Bit m2 PRE_RANGE_CONFIG_TIMEOUT_MACROP_HI)) % 65536
      else VL53L0X_decodeTimeout
        (VL53L0X_readReg16Bit m2 FINAL_RANGE_CONFIG_TIMEOUT_MACROP_HI) := rfl
  have hwrite : finalRangeTimeoutMclksToWrite mach budget = (y + p) % 65536 := by
    simp only [finalRangeTimeoutMclksToWrite]
    rw [if_pos hpre]
  have hfr : fr = (VL53L0X_decodeTimeout (VL53L0X_encodeTimeout ((y + p) % 65536))
      + 65536 - p) % 65536 := by
    rw [hfr0, hEn, if_pos hpre, hreg, hpre2, ← hp_eq, hwrite]
  have hp_lt : p < 65536 := hp_eq ▸ decodeTimeout_lt _
  have hp_pos : 1 ≤ p := hp_eq ▸ decodeTimeout_pos _
  have hd_lt : VL53L0X_decodeTimeout (VL53L0X_encodeTimeout ((y + p) % 65536)) < 65536 :=
    decodeTimeout_lt _
  constructor
  · rw [hfr]
    omega
  · intro hle
    have hmodyp : (y + p) % 65536 = y + p := Nat.mod_eq_of_lt (by omega)
    rw [hmodyp] at hfr hd_lt
    obtain ⟨hrt, he8⟩ := decode_encode_eq (y + p) (by omega) (by omega)
    refine ⟨by omega, ?_⟩
    intro hpd
    have hfr2 : fr = VL53L0X_decodeTimeout (VL53L0X_encodeTimeout (y + p)) - p := by
      rw [hfr]
      omega
    refine ⟨by omega, by omega, ?_⟩
    intro h256
    have hex := decode_encode_exact (y + p) (by omega) h256
    omega

/-- Witness for C1: on a machine with pre-range and final-range enabled
(pre-range timeout 100 mclks), setting a 30000 us budget allocates 555
final-range mclks; the set-then-get round trip obeys the additive
invariant, returning within encode rounding of 555. -/
theorem C1_final_range_additive_witness :
    (VL53L0X_setMeasurementTimingBudget preFinalMachine 30000).1 = true
    ∧ (VL53L0X_getSequenceStepEnables preFinalMachine).pre_range = true
    ∧ (VL53L0X_getSequenceStepEnables preFinalMachine).final_range = true
    ∧ allocatedFinalRangeMclks preFinalMachine 30000
        + (VL53L0X_getSequenceStepTimeouts preFinalMachine
            (VL53L0X_getSequenceStepEnables preFinalMachine)).pre_range_mclks ≤ 65535
    ∧ (((VL53L0X_getSequenceStepTimeouts
          (VL53L0X_setMeasurementTimingBudget preFinalMachine 30000).2
          (VL53L0X_getSequenceStepEnables
            (VL53L0X_setMeasurementTimingBudget preFinalMachine 30000).2)).final_range_mclks
        + (VL53L0X_getSequenceStepTimeouts preFinalMachine
            (VL53L0X_getSequenceStepEnables preFinalMachine)).pre_range_mclks) % 65536
      = VL53L0X_decodeTimeout (VL53L0X_encodeTimeout
          ((allocatedFinalRangeMclks preFinalMachine 30000
            + (VL53L0X_getSequenceStepTimeouts preFinalMachine
                (VL53L0X_getSequenceStepEnables preFinalMachine)).pre_range_mclks)
            % 65536))) :=
  ⟨by decide, by decide, by decide, by decide,
   (C1_final_range_additive preFinalMachine 30000 (by decide) (by decide) (by decide)).1⟩
